import Mathlib

/-
Verification of the Jenkins Job Builder `view_list` module
(src/jenkins_jobs/modules/view_list.py): a shallow embedding of
`List.root_xml`, the `COLUMN_DICT` column registry, the four filter
schema tables, and the field-mapping applier, together with theorems
about the markup tree the compiler produces.
-/

set_option autoImplicit false

/-- A scalar configuration value, as stored in a filter block: a string,
a boolean, or an integer (the three scalar shapes the module reads). -/
inductive Value : Type where
  | vstr (s : String)
  | vbool (b : Bool)
  | vint (n : Int)
deriving DecidableEq, Repr

/-- Rendering of a scalar value to element text: booleans render as the
lowercase strings, other scalars via their natural string form. -/
def Value.render : Value → String
  | Value.vstr s => s
  | Value.vbool b => if b then "true" else "false"
  | Value.vint n => toString n

/-- An ordered markup tree node: tag, attributes, optional text, ordered
children — the image of `xml.etree.ElementTree.Element`. -/
inductive MarkupElement : Type where
  | mk (tag : String) (attrs : List (String × String)) (text : Option String)
       (children : List MarkupElement)

/-- Tag accessor. -/
def MarkupElement.tag : MarkupElement → String
  | MarkupElement.mk t _ _ _ => t

/-- Attribute-list accessor. -/
def MarkupElement.attrs : MarkupElement → List (String × String)
  | MarkupElement.mk _ a _ _ => a

/-- Text accessor. -/
def MarkupElement.text : MarkupElement → Option String
  | MarkupElement.mk _ _ x _ => x

/-- Children accessor. -/
def MarkupElement.children : MarkupElement → List MarkupElement
  | MarkupElement.mk _ _ _ c => c

/-- The two error kinds of the compiler: the missing unconditionally
required field (`data['name']` raising on absence) and a filter schema
field whose required-marker default fires. -/
inductive CompileError : Type where
  | missingFieldError (key : String)
  | requiredFieldError (key : String)
deriving DecidableEq, Repr

/-- First-match lookup in an association list, the image of Python
`dict.get` (keys of a Python dict are unique, so first match is the
match). -/
def dictGet {α : Type} : List (String × α) → String → Option α
  | [], _ => none
  | (k2, v) :: rest, k => if k2 == k then some v else dictGet rest k

/-- The data of one filter block: an association of field keys to scalar
values, iterated in the input record's order. -/
abbrev FilterData : Type := List (String × Value)

/-- One schema table: ordered triples of config key, output tag, and
default; `none` as the default is the required-marker sentinel. -/
abbrev Mapping : Type := List (String × String × Option Value)

/-- A view configuration record, with one field per key `root_xml`
reads. `Option` at the outer level is key presence; for `description`,
`regex` and `status-filter` the inner `Option` distinguishes a null
value from a real one, since the code tests `is not None` on the result
of `data.get(key, None)`. `job-filters` is an ordered association list,
mirroring the insertion-ordered iteration of the Python dict. -/
structure ViewConfig : Type where
  name : Option String := none
  description : Option (Option String) := none
  filterExecutors : Option Bool := none
  filterQueue : Option Bool := none
  jobName : Option (List String) := none
  jobFilters : List (String × FilterData) := []
  columns : List String := []
  regex : Option (Option String) := none
  recurse : Option Bool := none
  statusFilter : Option (Option Bool) := none

/-- The fixed eight-entry column registry `COLUMN_DICT`. -/
def COLUMN_DICT : List (String × String) :=
  [("status", "hudson.views.StatusColumn"),
   ("weather", "hudson.views.WeatherColumn"),
   ("job", "hudson.views.JobColumn"),
   ("last-success", "hudson.views.LastSuccessColumn"),
   ("last-failure", "hudson.views.LastFailureColumn"),
   ("last-duration", "hudson.views.LastDurationColumn"),
   ("build-button", "hudson.views.BuildButtonColumn"),
   ("last-stable", "hudson.views.LastStableColumn")]

/-- The `most-recent` filter schema from `root_xml`. -/
def most_recent_mapping : Mapping :=
  [("max-to-include", "maxToInclude", some (Value.vstr "0")),
   ("check-start-time", "checkStartTime", some (Value.vbool false))]

/-- The `build-duration` filter schema from `root_xml`. -/
def build_duration_mapping : Mapping :=
  [("match-type", "includeExcludeTypeString", some (Value.vstr "includeMatched")),
   ("build-duration-type", "buildCountTypeString", some (Value.vstr "Latest")),
   ("amount-type", "amountTypeString", some (Value.vstr "Hours")),
   ("amount", "amount", some (Value.vstr "0")),
   ("less-than", "lessThan", some (Value.vbool true)),
   ("build-duration-minutes", "buildDurationMinutes", some (Value.vstr "0"))]

/-- The `build-trend` filter schema from `root_xml`. -/
def build_trend_mapping : Mapping :=
  [("match-type", "includeExcludeTypeString", some (Value.vstr "includeMatched")),
   ("build-trend-type", "buildCountTypeString", some (Value.vstr "Latest")),
   ("amount-type", "amountTypeString", some (Value.vstr "Hours")),
   ("amount", "amount", some (Value.vstr "0")),
   ("status", "statusTypeString", some (Value.vstr "Completed"))]

/-- The `job-status` filter schema from `root_xml`. -/
def job_status_mapping : Mapping :=
  [("match-type", "includeExcludeTypeString", some (Value.vstr "includeMatched")),
   ("unstable", "unstable", some (Value.vbool false)),
   ("failed", "failed", some (Value.vbool false)),
   ("aborted", "aborted", some (Value.vbool false)),
   ("disabled", "disabled", some (Value.vbool false)),
   ("stable", "stable", some (Value.vbool false))]

/-- Modelled from the spec: the Field-Mapping Applier (§4.2), whose
implementation (`convert_mapping_to_xml`) is not part of this source
file. For each schema triple in order it appends one child: the data
value when the key is present, else the default; when the default is
the required-marker sentinel and the key is absent it fails with
`RequiredFieldError(key)` if `fail_required` is true, and otherwise
emits the field with a null placeholder. Booleans render as lowercase
true/false, other scalars via their natural string form; the child
carries only text, no attributes. -/
def convert_mapping_to_xml (data : FilterData) (mapping : Mapping)
    (fail_required : Bool) : Except CompileError (List MarkupElement) :=
  match mapping with
  | [] => Except.ok []
  | (key, tagname, dflt) :: rest =>
    match dictGet data key with
    | some v =>
      match convert_mapping_to_xml data rest fail_required with
      | Except.error e => Except.error e
      | Except.ok cs =>
        Except.ok (MarkupElement.mk tagname [] (some v.render) [] :: cs)
    | none =>
      match dflt with
      | some v =>
        match convert_mapping_to_xml data rest fail_required with
        | Except.error e => Except.error e
        | Except.ok cs =>
          Except.ok (MarkupElement.mk tagname [] (some v.render) [] :: cs)
      | none =>
        if fail_required then Except.error (CompileError.requiredFieldError key)
        else
          match convert_mapping_to_xml data rest fail_required with
          | Except.error e => Except.error e
          | Except.ok cs => Except.ok (MarkupElement.mk tagname [] none [] :: cs)

/-- A filter element shell: the fixed filter tag with the
`plugin="view-job-filters"` attribute set by `root_xml`. -/
def filterElement (tagname : String) (cs : List MarkupElement) : MarkupElement :=
  MarkupElement.mk tagname [("plugin", "view-job-filters")] none cs

/-- The `if jobfilter == 'most-recent'` arm of the filter loop: look the
block's data up in the record and build one filter element through the
applier with `fail_required=True`. -/
def mostRecentChild (jobfilters : List (String × FilterData)) :
    Except CompileError (List MarkupElement) :=
  match dictGet jobfilters "most-recent" with
  | some mr_data =>
    match convert_mapping_to_xml mr_data most_recent_mapping true with
    | Except.error e => Except.error e
    | Except.ok cs =>
      Except.ok [filterElement "hudson.views.MostRecentJobsFilter" cs]
  | none => Except.ok []

/-- The `if jobfilter == 'build-duration'` arm of the filter loop. -/
def buildDurationChild (jobfilters : List (String × FilterData)) :
    Except CompileError (List MarkupElement) :=
  match dictGet jobfilters "build-duration" with
  | some bd_data =>
    match convert_mapping_to_xml bd_data build_duration_mapping true with
    | Except.error e => Except.error e
    | Except.ok cs =>
      Except.ok [filterElement "hudson.views.BuildDurationFilter" cs]
  | none => Except.ok []

/-- The `if jobfilter == 'build-trend'` arm of the filter loop. -/
def buildTrendChild (jobfilters : List (String × FilterData)) :
    Except CompileError (List MarkupElement) :=
  match dictGet jobfilters "build-trend" with
  | some bt_data =>
    match convert_mapping_to_xml bt_data build_trend_mapping true with
    | Except.error e => Except.error e
    | Except.ok cs =>
      Except.ok [filterElement "hudson.views.BuildTrendFilter" cs]
  | none => Except.ok []

/-- The `if jobfilter == 'job-status'` arm of the filter loop. -/
def jobStatusChild (jobfilters : List (String × FilterData)) :
    Except CompileError (List MarkupElement) :=
  match dictGet jobfilters "job-status" with
  | some js_data =>
    match convert_mapping_to_xml js_data job_status_mapping true with
    | Except.error e => Except.error e
    | Except.ok cs =>
      Except.ok [filterElement "hudson.views.JobStatusFilter" cs]
  | none => Except.ok []

/-- The body of one iteration of the `for jobfilter in jobfilters` loop
of `root_xml`: four independent equality tests against the known filter
names, each appending its filter element when the name matches. -/
def processFilter (jobfilters : List (String × FilterData)) (jobfilter : String) :
    Except CompileError (List MarkupElement) :=
  match (if jobfilter == "most-recent" then mostRecentChild jobfilters
         else Except.ok []) with
  | Except.error e => Except.error e
  | Except.ok a =>
    match (if jobfilter == "build-duration" then buildDurationChild jobfilters
           else Except.ok []) with
    | Except.error e => Except.error e
    | Except.ok b =>
      match (if jobfilter == "build-trend" then buildTrendChild jobfilters
             else Except.ok []) with
      | Except.error e => Except.error e
      | Except.ok c =>
        match (if jobfilter == "job-status" then jobStatusChild jobfilters
               else Except.ok []) with
        | Except.error e => Except.error e
        | Except.ok d => Except.ok (a ++ b ++ c ++ d)

/-- The whole `for jobfilter in jobfilters` loop: the record is iterated
in its own order, each key processed against the full record (the loop
body looks values up by name, as the Python does). -/
def processFilters (jobfilters : List (String × FilterData)) :
    List (String × FilterData) → Except CompileError (List MarkupElement)
  | [] => Except.ok []
  | (k, _) :: rest =>
    match processFilter jobfilters k with
    | Except.error e => Except.error e
    | Except.ok a =>
      match processFilters jobfilters rest with
      | Except.error e => Except.error e
      | Except.ok b => Except.ok (a ++ b)

/-- The `for column in columns` loop: a recognized column name appends a
childless element carrying the registry's tag; an unrecognized name is
skipped. -/
def columnChildren : List String → List MarkupElement
  | [] => []
  | c :: rest =>
    match dictGet COLUMN_DICT c with
    | some tagname => MarkupElement.mk tagname [] none [] :: columnChildren rest
    | none => columnChildren rest

/-- Boolean-to-text rendering used for `filterExecutors`, `filterQueue`,
`recurse` and `statusFilter`. -/
def boolText (b : Bool) : String := if b then "true" else "false"

/-- The child list of the root element, in the order `root_xml` appends
the children: name, optional description, filterExecutors, filterQueue,
the properties shell, jobNames (comparator marker then one string child
per job name), jobFilters, columns, optional includeRegex, recurse,
optional statusFilter. -/
def rootChildren (nm : String) (data : ViewConfig) (jfc : List MarkupElement) :
    List MarkupElement :=
  MarkupElement.mk "name" [] (some nm) []
  :: ((match Option.join data.description with
       | some s => [MarkupElement.mk "description" [] (some s) []]
       | none => [])
  ++ [MarkupElement.mk "filterExecutors" []
        (some (boolText (data.filterExecutors.getD false))) [],
      MarkupElement.mk "filterQueue" []
        (some (boolText (data.filterQueue.getD false))) [],
      MarkupElement.mk "properties"
        [("class", "hudson.model.View$PropertyList")] none [],
      MarkupElement.mk "jobNames" [] none
        (MarkupElement.mk "comparator"
           [("class", "hudson.util.CaseInsensitiveComparator")] none []
         :: (data.jobName.getD []).map
              (fun j => MarkupElement.mk "string" [] (some j) [])),
      MarkupElement.mk "jobFilters" [] none jfc,
      MarkupElement.mk "columns" [] none (columnChildren data.columns)]
  ++ (match Option.join data.regex with
      | some r => [MarkupElement.mk "includeRegex" [] (some r) []]
      | none => [])
  ++ [MarkupElement.mk "recurse" [] (some (boolText (data.recurse.getD false))) []]
  ++ (match Option.join data.statusFilter with
      | some b => [MarkupElement.mk "statusFilter" [] (some (boolText b)) []]
      | none => []))

/-- The compiler `List.root_xml`: fails with `MissingFieldError` when
`name` is absent (the `data['name']` access), propagates any applier
failure from the filter loop, and otherwise returns the
`hudson.model.ListView` root with the children of `rootChildren`. -/
def root_xml (data : ViewConfig) : Except CompileError MarkupElement :=
  match data.name with
  | none => Except.error (CompileError.missingFieldError "name")
  | some nm =>
    match processFilters data.jobFilters data.jobFilters with
    | Except.error e => Except.error e
    | Except.ok jfc =>
      Except.ok (MarkupElement.mk "hudson.model.ListView" [] none
        (rootChildren nm data jfc))

/-- The children of a parent that carry the given tag. -/
def childTagged (t : MarkupElement) (tagname : String) : List MarkupElement :=
  t.children.filter (fun c => c.tag == tagname)

/-- Totalized extraction of the success tree of a compile result. -/
def okTree (r : Except CompileError MarkupElement) : MarkupElement :=
  match r with
  | Except.ok t => t
  | Except.error _ => MarkupElement.mk "" [] none []

/-- The expected output tree for the config holding only `name = "v1"`. -/
def tree_v1 : MarkupElement :=
  MarkupElement.mk "hudson.model.ListView" [] none
    [MarkupElement.mk "name" [] (some "v1") [],
     MarkupElement.mk "filterExecutors" [] (some "false") [],
     MarkupElement.mk "filterQueue" [] (some "false") [],
     MarkupElement.mk "properties"
       [("class", "hudson.model.View$PropertyList")] none [],
     MarkupElement.mk "jobNames" [] none
       [MarkupElement.mk "comparator"
          [("class", "hudson.util.CaseInsensitiveComparator")] none []],
     MarkupElement.mk "jobFilters" [] none [],
     MarkupElement.mk "columns" [] none [],
     MarkupElement.mk "recurse" [] (some "false") []]

example : root_xml { name := some "v1" } = Except.ok tree_v1 := by rfl

/-- The expected output tree for the `v2` config with a `most-recent`
filter giving `max-to-include = 5`. -/
def tree_v2 : MarkupElement :=
  MarkupElement.mk "hudson.model.ListView" [] none
    [MarkupElement.mk "name" [] (some "v2") [],
     MarkupElement.mk "filterExecutors" [] (some "false") [],
     MarkupElement.mk "filterQueue" [] (some "false") [],
     MarkupElement.mk "properties"
       [("class", "hudson.model.View$PropertyList")] none [],
     MarkupElement.mk "jobNames" [] none
       [MarkupElement.mk "comparator"
          [("class", "hudson.util.CaseInsensitiveComparator")] none []],
     MarkupElement.mk "jobFilters" [] none
       [MarkupElement.mk "hudson.views.MostRecentJobsFilter"
          [("plugin", "view-job-filters")] none
          [MarkupElement.mk "maxToInclude" [] (some "5") [],
           MarkupElement.mk "checkStartTime" [] (some "false") []]],
     MarkupElement.mk "columns" [] none [],
     MarkupElement.mk "recurse" [] (some "false") []]

example :
    root_xml { name := some "v2",
               jobFilters := [("most-recent", [("max-to-include", Value.vint 5)])] }
      = Except.ok tree_v2 := by rfl

/-- The filter-element tag that a known filter-type key produces; `none`
for unknown keys, which the loop ignores. -/
def knownFilterTag (k : String) : Option String :=
  if k == "most-recent" then some "hudson.views.MostRecentJobsFilter"
  else if k == "build-duration" then some "hudson.views.BuildDurationFilter"
  else if k == "build-trend" then some "hudson.views.BuildTrendFilter"
  else if k == "job-status" then some "hudson.views.JobStatusFilter"
  else none

/-- Whether a compile result is a `RequiredFieldError` failure. -/
def isRequiredFieldError {α : Type} : Except CompileError α → Bool
  | Except.error (CompileError.requiredFieldError _) => true
  | _ => false

/-- A config whose `job-filters` record lists `job-status` before
`most-recent`: a probe for the output order of the filter children. -/
def cfg_order_probe : ViewConfig :=
  { name := some "v", jobFilters := [("job-status", []), ("most-recent", [])] }

/-- The tree compiled from `cfg_order_probe`. -/
def tree_order_probe : MarkupElement := okTree (root_xml cfg_order_probe)

/-- A config mixing known filter keys with an unknown one, in a
non-canonical order. -/
def cfg_filter_mix : ViewConfig :=
  { name := some "w",
    jobFilters := [("build-trend", []), ("bogus", []), ("most-recent", [])] }

/-- The tree compiled from `cfg_filter_mix`. -/
def tree_filter_mix : MarkupElement := okTree (root_xml cfg_filter_mix)

/-- A config with an empty description string. -/
def cfg_empty_desc : ViewConfig :=
  { name := some "x", description := some (some "") }

/-- The tree compiled from `cfg_empty_desc`. -/
def tree_empty_desc : MarkupElement := okTree (root_xml cfg_empty_desc)

/-- A config exercising the column registry with a recognized name, an
unrecognized one, and another recognized one. -/
def cfg_columns_probe : ViewConfig :=
  { name := some "c", columns := ["job", "bogus", "status"] }

/-- The tree compiled from `cfg_columns_probe`. -/
def tree_columns_probe : MarkupElement := okTree (root_xml cfg_columns_probe)

theorem no_marker_of_all (m : Mapping)
    (h : (m.all fun p => p.2.2.isSome) = true) :
    ∀ p ∈ m, p.2.2 ≠ (none : Option Value) := by
  intro p hp hn
  have h2 := List.all_eq_true.mp h p hp
  rw [hn] at h2
  simp at h2

theorem most_recent_no_marker :
    ∀ p ∈ most_recent_mapping, p.2.2 ≠ (none : Option Value) :=
  no_marker_of_all _ rfl

theorem build_duration_no_marker :
    ∀ p ∈ build_duration_mapping, p.2.2 ≠ (none : Option Value) :=
  no_marker_of_all _ rfl

theorem build_trend_no_marker :
    ∀ p ∈ build_trend_mapping, p.2.2 ≠ (none : Option Value) :=
  no_marker_of_all _ rfl

theorem job_status_no_marker :
    ∀ p ∈ job_status_mapping, p.2.2 ≠ (none : Option Value) :=
  no_marker_of_all _ rfl

theorem convert_no_marker_ok (mapping : Mapping) (data : FilterData) (fr : Bool)
    (h : ∀ p ∈ mapping, p.2.2 ≠ (none : Option Value)) :
    ∃ cs, convert_mapping_to_xml data mapping fr = Except.ok cs := by
  induction mapping with
  | nil => exact ⟨[], rfl⟩
  | cons hd rest ih =>
    obtain ⟨key, tagname, dflt⟩ := hd
    obtain ⟨cs, hcs⟩ := ih (fun p hp => h p (List.mem_cons_of_mem _ hp))
    cases hd2 : dictGet data key with
    | some v =>
      exact ⟨MarkupElement.mk tagname [] (some v.render) [] :: cs,
        by simp [convert_mapping_to_xml, hd2, hcs]⟩
    | none =>
      cases hdf : dflt with
      | some v =>
        exact ⟨MarkupElement.mk tagname [] (some v.render) [] :: cs,
          by simp [convert_mapping_to_xml, hd2, hdf, hcs]⟩
      | none =>
        exact absurd rfl (h (key, tagname, none)
          (by rw [← hdf]; exact List.mem_cons_self _ _))

theorem dictGet_mem {α : Type} (l : List (String × α)) (k : String) (v : α)
    (h : (k, v) ∈ l) : ∃ w, dictGet l k = some w := by
  induction l with
  | nil => cases h
  | cons hd rest ih =>
    obtain ⟨k2, v2⟩ := hd
    by_cases hk : k2 == k
    · exact ⟨v2, by simp [dictGet, hk]⟩
    · rcases List.mem_cons.mp h with heq | hmem
      · rw [Prod.mk.injEq] at heq
        exact absurd (by simp [heq.1.symm]) hk
      · obtain ⟨w, hw⟩ := ih hmem
        exact ⟨w, by simp [dictGet, hk, hw]⟩

theorem processFilter_ok (jf : List (String × FilterData)) (k : String)
    (d : FilterData) (hd : dictGet jf k = some d) :
    ∃ cs, processFilter jf k = Except.ok cs ∧
      cs.map MarkupElement.tag = (knownFilterTag k).toList := by
  by_cases h1 : k = "most-recent"
  · subst h1
    obtain ⟨cs, hcs⟩ :=
      convert_no_marker_ok most_recent_mapping d true most_recent_no_marker
    exact ⟨[filterElement "hudson.views.MostRecentJobsFilter" cs],
      by simp [processFilter, mostRecentChild, hd, hcs],
      by simp [knownFilterTag, filterElement, MarkupElement.tag]⟩
  · by_cases h2 : k = "build-duration"
    · subst h2
      obtain ⟨cs, hcs⟩ :=
        convert_no_marker_ok build_duration_mapping d true build_duration_no_marker
      exact ⟨[filterElement "hudson.views.BuildDurationFilter" cs],
        by simp [processFilter, buildDurationChild, hd, hcs],
        by simp [knownFilterTag, filterElement, MarkupElement.tag]⟩
    · by_cases h3 : k = "build-trend"
      · subst h3
        obtain ⟨cs, hcs⟩ :=
          convert_no_marker_ok build_trend_mapping d true build_trend_no_marker
        exact ⟨[filterElement "hudson.views.BuildTrendFilter" cs],
          by simp [processFilter, buildTrendChild, hd, hcs],
          by simp [knownFilterTag, filterElement, MarkupElement.tag]⟩
      · by_cases h4 : k = "job-status"
        · subst h4
          obtain ⟨cs, hcs⟩ :=
            convert_no_marker_ok job_status_mapping d true job_status_no_marker
          exact ⟨[filterElement "hudson.views.JobStatusFilter" cs],
            by simp [processFilter, jobStatusChild, hd, hcs],
            by simp [knownFilterTag, filterElement, MarkupElement.tag]⟩
        · exact ⟨[], by simp [processFilter, h1, h2, h3, h4],
            by simp [knownFilterTag, h1, h2, h3, h4]⟩

theorem processFilters_ok (jf : List (String × FilterData))
    (l : List (String × FilterData))
    (h : ∀ p ∈ l, ∃ d, dictGet jf p.1 = some d) :
    ∃ cs, processFilters jf l = Except.ok cs ∧
      cs.map MarkupElement.tag = (l.map Prod.fst).filterMap knownFilterTag := by
  induction l with
  | nil => exact ⟨[], rfl, by simp⟩
  | cons hd rest ih =>
    obtain ⟨k, d0⟩ := hd
    obtain ⟨d, hdg⟩ := h (k, d0) (List.mem_cons_self _ _)
    obtain ⟨a, ha, hta⟩ := processFilter_ok jf k d hdg
    obtain ⟨b, hb, htb⟩ := ih (fun p hp => h p (List.mem_cons_of_mem _ hp))
    refine ⟨a ++ b, by simp [processFilters, ha, hb], ?_⟩
    rw [List.map_append, hta, htb]
    simp only [List.map_cons, List.filterMap_cons]
    cases hk : knownFilterTag k <;> simp

theorem processFilters_self (jf : List (String × FilterData)) :
    ∃ cs, processFilters jf jf = Except.ok cs ∧
      cs.map MarkupElement.tag = (jf.map Prod.fst).filterMap knownFilterTag :=
  processFilters_ok jf jf (fun p hp => dictGet_mem jf p.1 p.2 hp)

theorem root_xml_ok_shape (cfg : ViewConfig) (t : MarkupElement)
    (h : root_xml cfg = Except.ok t) :
    ∃ nm jfc, cfg.name = some nm ∧
      processFilters cfg.jobFilters cfg.jobFilters = Except.ok jfc ∧
      t = MarkupElement.mk "hudson.model.ListView" [] none
            (rootChildren nm cfg jfc) := by
  cases hn : cfg.name with
  | none => simp [root_xml, hn] at h
  | some nm =>
    cases hp : processFilters cfg.jobFilters cfg.jobFilters with
    | error e => simp [root_xml, hn, hp] at h
    | ok jfc =>
      refine ⟨nm, jfc, rfl, rfl, ?_⟩
      simp only [root_xml, hn, hp] at h
      exact (Except.ok.injEq _ _ ▸ congrArg id h).symm

theorem root_xml_ok_of_name (cfg : ViewConfig) (nm : String)
    (h : cfg.name = some nm) :
    ∃ jfc, processFilters cfg.jobFilters cfg.jobFilters = Except.ok jfc ∧
      root_xml cfg = Except.ok (MarkupElement.mk "hudson.model.ListView" [] none
        (rootChildren nm cfg jfc)) := by
  obtain ⟨jfc, hjfc, _⟩ := processFilters_self cfg.jobFilters
  exact ⟨jfc, hjfc, by simp [root_xml, h, hjfc]⟩

theorem rootChildren_filter_name (nm : String) (cfg : ViewConfig)
    (jfc : List MarkupElement) :
    (rootChildren nm cfg jfc).filter (fun c => c.tag == "name")
      = [MarkupElement.mk "name" [] (some nm) []] := by
  unfold rootChildren
  rcases Option.join cfg.description with _ | s <;>
    rcases Option.join cfg.regex with _ | r <;>
      rcases Option.join cfg.statusFilter with _ | b <;>
        simp [MarkupElement.tag]

theorem rootChildren_filter_description (nm : String) (cfg : ViewConfig)
    (jfc : List MarkupElement) :
    (rootChildren nm cfg jfc).filter (fun c => c.tag == "description")
      = (match Option.join cfg.description with
         | some s => [MarkupElement.mk "description" [] (some s) []]
         | none => []) := by
  unfold rootChildren
  rcases Option.join cfg.description with _ | s <;>
    rcases Option.join cfg.regex with _ | r <;>
      rcases Option.join cfg.statusFilter with _ | b <;>
        simp [MarkupElement.tag]

theorem rootChildren_filter_jobFilters (nm : String) (cfg : ViewConfig)
    (jfc : List MarkupElement) :
    (rootChildren nm cfg jfc).filter (fun c => c.tag == "jobFilters")
      = [MarkupElement.mk "jobFilters" [] none jfc] := by
  unfold rootChildren
  rcases Option.join cfg.description with _ | s <;>
    rcases Option.join cfg.regex with _ | r <;>
      rcases Option.join cfg.statusFilter with _ | b <;>
        simp [MarkupElement.tag]

theorem rootChildren_filter_columns (nm : String) (cfg : ViewConfig)
    (jfc : List MarkupElement) :
    (rootChildren nm cfg jfc).filter (fun c => c.tag == "columns")
      = [MarkupElement.mk "columns" [] none (columnChildren cfg.columns)] := by
  unfold rootChildren
  rcases Option.join cfg.description with _ | s <;>
    rcases Option.join cfg.regex with _ | r <;>
      rcases Option.join cfg.statusFilter with _ | b <;>
        simp [MarkupElement.tag]

theorem columnChildren_eq (l : List String) :
    columnChildren l = l.filterMap (fun c => (dictGet COLUMN_DICT c).map
      (fun tagname => MarkupElement.mk tagname [] none [])) := by
  induction l with
  | nil => rfl
  | cons c rest ih =>
    cases h : dictGet COLUMN_DICT c <;>
      simp [columnChildren, h, ih, List.filterMap_cons]

/-- C4: compiling the config holding only `name = "v1"` yields exactly
the root whose children are, in order: name "v1", filterExecutors
"false", filterQueue "false", the fixed properties shell, the jobNames
shell holding only the comparator marker, an empty jobFilters shell, an
empty columns shell, and recurse "false"; no description, includeRegex
or statusFilter child is present. -/
theorem C4_minimal_config_tree :
    root_xml { name := some "v1" } = Except.ok tree_v1 := by rfl

/-- C5: compiling `name = "v2"` with a `most-recent` filter giving
`max-to-include = 5` yields a tree whose jobFilters element has exactly
one child, the MostRecentJobsFilter element with `maxToInclude` text
"5" followed by `checkStartTime` text "false" (the non-required
default). -/
theorem C5_most_recent_filter_tree :
    root_xml { name := some "v2",
               jobFilters := [("most-recent", [("max-to-include", Value.vint 5)])] }
      = Except.ok tree_v2 := by rfl

/-- C9: the compiler is deterministic — equal inputs give identical
output trees, with no dependence on anything but the input. -/
theorem C9_deterministic (cfg1 cfg2 : ViewConfig) (h : cfg1 = cfg2) :
    root_xml cfg1 = root_xml cfg2 := by rw [h]

theorem C9_witness :
    root_xml { name := some "d" } = root_xml { name := some "d" } :=
  C9_deterministic { name := some "d" } { name := some "d" } rfl

/-- C10: for `description`, `regex` and `status-filter`, emission is
decided by the stored value being non-null: a config carrying the key
with a null value compiles to the same tree as one omitting the key. -/
theorem C10_null_equals_absent (cfg : ViewConfig) :
    root_xml { cfg with description := some none }
      = root_xml { cfg with description := none }
    ∧ root_xml { cfg with regex := some none }
      = root_xml { cfg with regex := none }
    ∧ root_xml { cfg with statusFilter := some none }
      = root_xml { cfg with statusFilter := none } :=
  ⟨rfl, rfl, rfl⟩

/-- C3: a config lacking `name` fails with `MissingFieldError` and no
tree is produced; whenever `name` is present compilation succeeds (so
`name` is the only field whose absence is unconditionally an error),
and the name child's text equals the configured value verbatim. -/
theorem C3_name_required (cfg : ViewConfig) :
    (cfg.name = none →
      root_xml cfg = Except.error (CompileError.missingFieldError "name")) ∧
    (∀ nm, cfg.name = some nm →
      (root_xml cfg).isOk = true ∧
      childTagged (okTree (root_xml cfg)) "name"
        = [MarkupElement.mk "name" [] (some nm) []]) := by
  constructor
  · intro h
    simp [root_xml, h]
  · intro nm h
    obtain ⟨jfc, hjfc, hok⟩ := root_xml_ok_of_name cfg nm h
    rw [hok]
    refine ⟨rfl, ?_⟩
    show childTagged (MarkupElement.mk "hudson.model.ListView" [] none
      (rootChildren nm cfg jfc)) "name" = _
    unfold childTagged
    simp only [MarkupElement.children]
    exact rootChildren_filter_name nm cfg jfc

theorem C3_witness :
    root_xml { name := none } = Except.error (CompileError.missingFieldError "name")
    ∧ (root_xml { name := some "n" }).isOk = true
    ∧ childTagged (okTree (root_xml { name := some "n" })) "name"
        = [MarkupElement.mk "name" [] (some "n") []] :=
  ⟨(C3_name_required { name := none }).1 rfl,
   (C3_name_required { name := some "n" }).2 "n" rfl⟩

/-- C6: omitting `description` yields no description child, while an
empty-string description yields a description child with empty text —
presence and value are independently observable. -/
theorem C6_description_presence (cfg : ViewConfig) (t : MarkupElement)
    (h : root_xml cfg = Except.ok t) :
    (cfg.description = none → childTagged t "description" = []) ∧
    (cfg.description = some (some "") →
      childTagged t "description"
        = [MarkupElement.mk "description" [] (some "") []]) := by
  obtain ⟨nm, jfc, hn, hjfc, ht⟩ := root_xml_ok_shape cfg t h
  subst ht
  unfold childTagged
  simp only [MarkupElement.children]
  rw [rootChildren_filter_description nm cfg jfc]
  constructor
  · intro hd
    simp [hd]
  · intro hd
    simp [hd]

theorem C6_witness :
    childTagged (okTree (root_xml { name := some "x" })) "description" = []
    ∧ childTagged tree_empty_desc "description"
        = [MarkupElement.mk "description" [] (some "") []] :=
  ⟨(C6_description_presence { name := some "x" }
      (okTree (root_xml { name := some "x" })) rfl).1 rfl,
   (C6_description_presence cfg_empty_desc tree_empty_desc rfl).2 rfl⟩

/-- C8: every entry of `columns` is resolved against the fixed
eight-entry registry: a recognized name appends a childless element
with the registry's tag, in list order, and an unrecognized name is
skipped with no error and no output entry. -/
theorem C8_column_registry (cfg : ViewConfig) (t : MarkupElement)
    (h : root_xml cfg = Except.ok t) :
    childTagged t "columns"
      = [MarkupElement.mk "columns" [] none
          (cfg.columns.filterMap (fun c => (dictGet COLUMN_DICT c).map
            (fun tagname => MarkupElement.mk tagname [] none [])))]
    ∧ COLUMN_DICT.map Prod.fst
      = ["status", "weather", "job", "last-success", "last-failure",
         "last-duration", "build-button", "last-stable"] := by
  obtain ⟨nm, jfc, hn, hjfc, ht⟩ := root_xml_ok_shape cfg t h
  subst ht
  refine ⟨?_, rfl⟩
  unfold childTagged
  simp only [MarkupElement.children]
  rw [rootChildren_filter_columns nm cfg jfc, columnChildren_eq]

theorem C8_witness :
    childTagged tree_columns_probe "columns"
      = [MarkupElement.mk "columns" [] none
          [MarkupElement.mk "hudson.views.JobColumn" [] none [],
           MarkupElement.mk "hudson.views.StatusColumn" [] none []]] :=
  ((C8_column_registry cfg_columns_probe tree_columns_probe rfl).1).trans rfl

/-- C1 counterexample: a config whose `job-filters` record lists
`job-status` before `most-recent` compiles to a jobFilters element
whose children are in that input order — not the canonical order
`most-recent, build-duration, build-trend, job-status` the claim
states, which would put the MostRecentJobsFilter child first. -/
theorem C1_counterexample :
    (childTagged tree_order_probe "jobFilters").map
        (fun e => e.children.map MarkupElement.tag)
      = [["hudson.views.JobStatusFilter", "hudson.views.MostRecentJobsFilter"]]
    ∧ ["hudson.views.JobStatusFilter", "hudson.views.MostRecentJobsFilter"]
      ≠ ["hudson.views.MostRecentJobsFilter", "hudson.views.JobStatusFilter"] :=
  ⟨rfl, by decide⟩

/-- C1 amended: the children of the jobFilters element appear in the
iteration order of the input's `job-filters` record; a filter child is
emitted only for filter-type keys actually present, and unknown
filter-type keys produce no child. -/
theorem C1_filter_order_amended (cfg : ViewConfig) (t : MarkupElement)
    (h : root_xml cfg = Except.ok t) :
    (childTagged t "jobFilters").map (fun e => e.children.map MarkupElement.tag)
      = [(cfg.jobFilters.map Prod.fst).filterMap knownFilterTag] := by
  obtain ⟨nm, jfc, hn, hjfc, ht⟩ := root_xml_ok_shape cfg t h
  subst ht
  unfold childTagged
  simp only [MarkupElement.children]
  rw [rootChildren_filter_jobFilters nm cfg jfc]
  obtain ⟨jfc0, hjfc0, htags⟩ := processFilters_self cfg.jobFilters
  rw [hjfc0] at hjfc
  cases hjfc
  simp [MarkupElement.children, htags]

theorem C1_witness :
    (childTagged tree_filter_mix "jobFilters").map
        (fun e => e.children.map MarkupElement.tag)
      = [["hudson.views.BuildTrendFilter", "hudson.views.MostRecentJobsFilter"]] :=
  (C1_filter_order_amended cfg_filter_mix tree_filter_mix rfl).trans rfl

theorem boolText_tf (b : Bool) :
    some (boolText b) = some "true" ∨ some (boolText b) = some "false" := by
  cases b <;> simp [boolText]

theorem rootChildren_filter_fe (nm : String) (cfg : ViewConfig)
    (jfc : List MarkupElement) :
    (rootChildren nm cfg jfc).filter (fun c => c.tag == "filterExecutors")
      = [MarkupElement.mk "filterExecutors" []
          (some (boolText (cfg.filterExecutors.getD false))) []] := by
  unfold rootChildren
  rcases Option.join cfg.description with _ | s <;>
    rcases Option.join cfg.regex with _ | r <;>
      rcases Option.join cfg.statusFilter with _ | b <;>
        simp [MarkupElement.tag]

theorem rootChildren_filter_fq (nm : String) (cfg : ViewConfig)
    (jfc : List MarkupElement) :
    (rootChildren nm cfg jfc).filter (fun c => c.tag == "filterQueue")
      = [MarkupElement.mk "filterQueue" []
          (some (boolText (cfg.filterQueue.getD false))) []] := by
  unfold rootChildren
  rcases Option.join cfg.description with _ | s <;>
    rcases Option.join cfg.regex with _ | r <;>
      rcases Option.join cfg.statusFilter with _ | b <;>
        simp [MarkupElement.tag]

theorem rootChildren_filter_recurse (nm : String) (cfg : ViewConfig)
    (jfc : List MarkupElement) :
    (rootChildren nm cfg jfc).filter (fun c => c.tag == "recurse")
      = [MarkupElement.mk "recurse" []
          (some (boolText (cfg.recurse.getD false))) []] := by
  unfold rootChildren
  rcases Option.join cfg.description with _ | s <;>
    rcases Option.join cfg.regex with _ | r <;>
      rcases Option.join cfg.statusFilter with _ | b <;>
        simp [MarkupElement.tag]

theorem rootChildren_filter_sf (nm : String) (cfg : ViewConfig)
    (jfc : List MarkupElement) :
    (rootChildren nm cfg jfc).filter (fun c => c.tag == "statusFilter")
      = (match Option.join cfg.statusFilter with
         | some b => [MarkupElement.mk "statusFilter" [] (some (boolText b)) []]
         | none => []) := by
  unfold rootChildren
  rcases Option.join cfg.description with _ | s <;>
    rcases Option.join cfg.regex with _ | r <;>
      rcases Option.join cfg.statusFilter with _ | b <;>
        simp [MarkupElement.tag]

/-- C7: every boolean-valued output field — filterExecutors,
filterQueue, recurse, and statusFilter when present — carries exactly
the lowercase text "true" or "false", and boolean filter-field values
(including default-derived ones) render through the same lowercase
form, never numeric or capitalized. -/
theorem C7_bool_rendering (cfg : ViewConfig) (t : MarkupElement)
    (h : root_xml cfg = Except.ok t) :
    (∀ c ∈ t.children,
      (c.tag = "filterExecutors" ∨ c.tag = "filterQueue" ∨
       c.tag = "recurse" ∨ c.tag = "statusFilter") →
      c.text = some "true" ∨ c.text = some "false") ∧
    (∀ b : Bool, Value.render (Value.vbool b) = "true"
      ∨ Value.render (Value.vbool b) = "false") := by
  obtain ⟨nm, jfc, hn, hjfc, ht⟩ := root_xml_ok_shape cfg t h
  subst ht
  constructor
  · intro c hc htag
    simp only [MarkupElement.children] at hc
    rcases htag with hg | hg | hg | hg
    · have hm : c ∈ (rootChildren nm cfg jfc).filter
          (fun x => x.tag == "filterExecutors") :=
        List.mem_filter.mpr ⟨hc, by simp [hg]⟩
      rw [rootChildren_filter_fe] at hm
      simp only [List.mem_singleton] at hm
      subst hm
      exact boolText_tf _
    · have hm : c ∈ (rootChildren nm cfg jfc).filter
          (fun x => x.tag == "filterQueue") :=
        List.mem_filter.mpr ⟨hc, by simp [hg]⟩
      rw [rootChildren_filter_fq] at hm
      simp only [List.mem_singleton] at hm
      subst hm
      exact boolText_tf _
    · have hm : c ∈ (rootChildren nm cfg jfc).filter
          (fun x => x.tag == "recurse") :=
        List.mem_filter.mpr ⟨hc, by simp [hg]⟩
      rw [rootChildren_filter_recurse] at hm
      simp only [List.mem_singleton] at hm
      subst hm
      exact boolText_tf _
    · have hm : c ∈ (rootChildren nm cfg jfc).filter
          (fun x => x.tag == "statusFilter") :=
        List.mem_filter.mpr ⟨hc, by simp [hg]⟩
      rw [rootChildren_filter_sf] at hm
      rcases hj : Option.join cfg.statusFilter with _ | b <;> rw [hj] at hm
      · cases hm
      · simp only [List.mem_singleton] at hm
        subst hm
        exact boolText_tf _
  · intro b
    cases b <;> simp [Value.render]

theorem C7_witness :
    (MarkupElement.mk "recurse" [] (some "false") []).text = some "true"
    ∨ (MarkupElement.mk "recurse" [] (some "false") []).text = some "false" :=
  (C7_bool_rendering { name := some "v1" } tree_v1 rfl).1
    (MarkupElement.mk "recurse" [] (some "false") [])
    (by simp [tree_v1, MarkupElement.children])
    (by simp [MarkupElement.tag])

/-- C2 counterexample: contrary to the claim's existence clause, every
triple of every one of the four filter schemas carries a real default —
none of them is the required-marker sentinel, so no filter block can be
"missing a required-marker field". -/
theorem C2_counterexample :
    ((most_recent_mapping ++ build_duration_mapping ++ build_trend_mapping
        ++ job_status_mapping).all (fun p => p.2.2.isSome)) = true := rfl

/-- C2 amended: the field-mapping applier does fail with
`RequiredFieldError` whenever a schema triple's default is the
required-marker sentinel and its key is absent from the filter data
(with enforcement on, as `root_xml` always passes it), and no output is
produced then; but since no triple of the four filter schemas has a
marker default, `root_xml` itself never fails with
`RequiredFieldError` on any config. -/
theorem C2_required_marker_amended :
    (∀ (data : FilterData) (mapping : Mapping) (k tagname : String),
        (k, tagname, (none : Option Value)) ∈ mapping →
        dictGet data k = none →
        isRequiredFieldError (convert_mapping_to_xml data mapping true) = true) ∧
    (∀ (cfg : ViewConfig) (k : String),
        root_xml cfg ≠ Except.error (CompileError.requiredFieldError k)) := by
  constructor
  · intro data mapping k tagname hmem hdg
    induction mapping with
    | nil => cases hmem
    | cons hd rest ih =>
      obtain ⟨key, tg, dflt⟩ := hd
      rcases List.mem_cons.mp hmem with heq | hmem2
      · rw [Prod.mk.injEq] at heq
        obtain ⟨hk, hrest⟩ := heq
        rw [Prod.mk.injEq] at hrest
        obtain ⟨htg, hdflt⟩ := hrest
        subst hk
        simp [convert_mapping_to_xml, hdg, ← hdflt, isRequiredFieldError]
      · have hrec := ih hmem2
        cases hd2 : dictGet data key with
        | some v =>
          cases hc : convert_mapping_to_xml data rest true with
          | error e =>
            rw [hc] at hrec
            simpa [convert_mapping_to_xml, hd2, hc] using hrec
          | ok cs =>
            rw [hc] at hrec
            simp [isRequiredFieldError] at hrec
        | none =>
          cases hdf : dflt with
          | some v =>
            cases hc : convert_mapping_to_xml data rest true with
            | error e =>
              rw [hc] at hrec
              simpa [convert_mapping_to_xml, hd2, hdf, hc] using hrec
            | ok cs =>
              rw [hc] at hrec
              simp [isRequiredFieldError] at hrec
          | none =>
            simp [convert_mapping_to_xml, hd2, isRequiredFieldError]
  · intro cfg k
    cases hn : cfg.name with
    | none => simp [root_xml, hn]
    | some nm =>
      obtain ⟨jfc, hjfc, hok⟩ := root_xml_ok_of_name cfg nm hn
      rw [hok]
      simp

theorem C2_witness :
    isRequiredFieldError
      (convert_mapping_to_xml [] [("a", "A", (none : Option Value))] true) = true :=
  C2_required_marker_amended.1 [] [("a", "A", none)] "a" "A"
    (List.mem_singleton.mpr rfl) rfl
